import Mathlib

/-!
Verification development for the Playtorium discount module.

Shallow embedding of `discount.ts` (with the data model of `schema.ts`):
JavaScript numbers are modelled as rationals (ℚ), `Math.floor` as `Int.floor`,
`Math.round` as `fun x => Int.floor (x + 1/2)` (JavaScript rounds half toward
positive infinity), and the `throw`s of `categorizeCampaigns` as `Except.error`.
-/

deriving instance DecidableEq for Except

/-- `ItemCategory` enum from `schema.ts`. -/
inductive ItemCategory
  | Clothing
  | Accessories
  | Electronics
deriving DecidableEq, Repr

/-- `CampaignCategory` enum from `schema.ts` (values "Coupon", "On Top", "Seasonal"). -/
inductive CampaignCategory
  | Coupon
  | OnTop
  | Seasonal
deriving DecidableEq, Repr

/-- `CartItem` from `schema.ts`: quantity is optional (the engine defaults it to 1). -/
structure CartItem where
  name : String
  price : ℚ
  category : ItemCategory
  quantity : Option Nat
deriving DecidableEq, Repr

/-- The five-variant `DiscountCampaign` union of `schema.ts`, keyed by
(category, type): `fixedAmount` is Coupon/Fixed, `percentageCoupon` is
Coupon/Percentage, `categoryDiscount` is "On Top"/Percentage, `pointsDiscount`
is "On Top"/Fixed, `seasonal` is Seasonal/Special. -/
inductive DiscountCampaign
  | fixedAmount (amount : ℚ)
  | percentageCoupon (percentage : ℚ)
  | categoryDiscount (targetCategory : ItemCategory) (percentage : ℚ)
  | pointsDiscount (customerPoints : Nat)
  | seasonal (everyXThb : ℚ) (discountYThb : ℚ)
deriving DecidableEq, Repr

/-- One entry of `appliedCampaigns` in the result record of `discount.ts`. -/
structure AppliedCampaign where
  category : CampaignCategory
  discountAmount : ℚ
deriving DecidableEq, Repr

/-- `DiscountResult` from `schema.ts` / `discount.ts`. -/
structure DiscountResult where
  originalTotal : ℚ
  finalTotal : ℚ
  totalDiscount : ℚ
  appliedCampaigns : List AppliedCampaign
deriving DecidableEq, Repr

/-- `POINTS_CAP_PERCENTAGE = 0.2` from `discount.ts`. -/
def POINTS_CAP_PERCENTAGE : ℚ := 0.2

/-- The points-to-THB constant (value 1) from `discount.ts`. -/
def POINTS_TO_THB_RATE : ℚ := 1

/-- The `category` discriminant of a campaign, as read by the `switch` in
`categorizeCampaigns`. -/
def DiscountCampaign.category : DiscountCampaign → CampaignCategory
  | .fixedAmount _ => .Coupon
  | .percentageCoupon _ => .Coupon
  | .categoryDiscount _ _ => .OnTop
  | .pointsDiscount _ => .OnTop
  | .seasonal _ _ => .Seasonal

/-- `item.quantity || 1` from `calculateOriginalTotal` in `discount.ts`:
an absent quantity (and the falsy 0) becomes 1. -/
def CartItem.effectiveQuantity (it : CartItem) : Nat :=
  match it.quantity with
  | none => 1
  | some q => if q = 0 then 1 else q

/-- `calculateOriginalTotal` from `discount.ts`: reduce over `total + price * quantity`. -/
def calculateOriginalTotal (cartItems : List CartItem) : ℚ :=
  cartItems.foldl (fun total item => total + item.price * (item.effectiveQuantity : ℚ)) 0

/-- The three mutable slots of `categorizeCampaigns` in `discount.ts`. -/
structure CategorizedCampaigns where
  coupon : Option DiscountCampaign
  onTop : Option DiscountCampaign
  seasonal : Option DiscountCampaign
deriving DecidableEq, Repr

/-- One iteration of the `for` loop in `categorizeCampaigns` (`discount.ts`,
lines 61-82).  Note the source checks `if (coupon)` in all three cases — also
in the "On Top" and "Seasonal" branches — which this embedding reproduces
faithfully. -/
def categorizeStep (acc : CategorizedCampaigns) (c : DiscountCampaign) :
    Except String CategorizedCampaigns :=
  match DiscountCampaign.category c with
  | CampaignCategory.Coupon =>
    match acc.coupon with
    | some _ => Except.error ("Can only use one Coupon")
    | none => Except.ok { acc with coupon := some c }
  | CampaignCategory.OnTop =>
    match acc.coupon with
    | some _ => Except.error ("Can only use one On-top discount")
    | none => Except.ok { acc with onTop := some c }
  | CampaignCategory.Seasonal =>
    match acc.coupon with
    | some _ => Except.error ("Can only use one Seasonal discount")
    | none => Except.ok { acc with seasonal := some c }

/-- The `for` loop of `categorizeCampaigns` as a recursion over the campaign list. -/
def categorizeLoop (acc : CategorizedCampaigns) :
    List DiscountCampaign → Except String CategorizedCampaigns
  | [] => Except.ok acc
  | c :: rest =>
    match categorizeStep acc c with
    | Except.error e => Except.error e
    | Except.ok acc' => categorizeLoop acc' rest

/-- `categorizeCampaigns` from `discount.ts`: all three slots start empty. -/
def categorizeCampaigns (campaigns : List DiscountCampaign) :
    Except String CategorizedCampaigns :=
  categorizeLoop { coupon := none, onTop := none, seasonal := none } campaigns

/-- `applyCouponCampaign` from `discount.ts`.  The coupon slot only ever holds
Coupon-category campaigns, so the type-tag dispatch of the source matches the
two coupon constructors; everything else falls to the `return 0` branch. -/
def applyCouponCampaign (currentTotal : ℚ) : Option DiscountCampaign → ℚ
  | some (DiscountCampaign.fixedAmount amount) => amount
  | some (DiscountCampaign.percentageCoupon percentage) => currentTotal * percentage / 100
  | _ => 0

/-- `applyOnTopCampaign` from `discount.ts`: the "Fixed" tag is the points
discount (capped by 20% of the current running total), the "Percentage" tag is
the category discount computed from the original item prices. -/
def applyOnTopCampaign (currentTotal : ℚ) (cartItems : List CartItem) :
    Option DiscountCampaign → ℚ
  | some (DiscountCampaign.pointsDiscount customerPoints) =>
      min ((customerPoints : ℚ) * POINTS_TO_THB_RATE) (currentTotal * POINTS_CAP_PERCENTAGE)
  | some (DiscountCampaign.categoryDiscount targetCategory percentage) =>
      calculateOriginalTotal
        (cartItems.filter (fun item => item.category == targetCategory)) * percentage / 100
  | _ => 0

/-- `applySeasonalCampaign` from `discount.ts`:
`Math.floor(currentTotal / everyXThb) * discountYThb`, 0 with no campaign. -/
def applySeasonalCampaign (currentTotal : ℚ) : Option DiscountCampaign → ℚ
  | some (DiscountCampaign.seasonal everyXThb discountYThb) =>
      (Int.floor (currentTotal / everyXThb) : ℚ) * discountYThb
  | _ => 0

/-- JavaScript `Math.round`: floor of x + 1/2 (half toward positive infinity). -/
def jsRound (x : ℚ) : ℚ := (Int.floor (x + 1/2) : ℚ)

/-- `Math.round(x * 100) / 100` — the 2-decimal rounding used in `calculateDiscount`. -/
def round2 (x : ℚ) : ℚ := jsRound (x * 100) / 100

/-- The body of `calculateDiscount` (`discount.ts` lines 7-47) after a
successful `categorizeCampaigns`: the three sequential stages, the final clamp
`Math.max(0, currentTotal)`, and the assembly of the result record. -/
def applyCampaignStages (cartItems : List CartItem)
    (campaignsByCategory : CategorizedCampaigns) : DiscountResult :=
  let originalTotal := calculateOriginalTotal cartItems
  let couponDiscount := applyCouponCampaign originalTotal campaignsByCategory.coupon
  let totalAfterCoupon := originalTotal - couponDiscount
  let onTopDiscount := applyOnTopCampaign totalAfterCoupon cartItems campaignsByCategory.onTop
  let totalAfterOnTop := totalAfterCoupon - onTopDiscount
  let seasonalDiscount := applySeasonalCampaign totalAfterOnTop campaignsByCategory.seasonal
  let totalAfterSeasonal := totalAfterOnTop - seasonalDiscount
  let clampedTotal := max 0 totalAfterSeasonal
  { originalTotal := originalTotal
    finalTotal := round2 clampedTotal
    totalDiscount := round2 (originalTotal - clampedTotal)
    appliedCampaigns :=
      [ { category := CampaignCategory.Coupon, discountAmount := couponDiscount },
        { category := CampaignCategory.OnTop, discountAmount := onTopDiscount },
        { category := CampaignCategory.Seasonal, discountAmount := seasonalDiscount } ] }

/-- `calculateDiscount` from `discount.ts`: categorize (which may throw), then
run the three stages in the fixed order Coupon, On Top, Seasonal. -/
def calculateDiscount (cartItems : List CartItem) (campaigns : List DiscountCampaign) :
    Except String DiscountResult :=
  match categorizeCampaigns campaigns with
  | Except.error e => Except.error e
  | Except.ok campaignsByCategory =>
      Except.ok (applyCampaignStages cartItems campaignsByCategory)

/-- A line item satisfying the input contract of `CartItemSchema`:
non-negative price, quantity ≥ 1 when present. -/
def ValidItem (it : CartItem) : Prop :=
  0 ≤ it.price ∧ 1 ≤ it.quantity.getD 1

instance (it : CartItem) : Decidable (ValidItem it) := by
  unfold ValidItem; infer_instance

/-- All items of a cart satisfy the input contract. -/
def ValidItems (cartItems : List CartItem) : Prop := ∀ it ∈ cartItems, ValidItem it

instance (cartItems : List CartItem) : Decidable (ValidItems cartItems) := by
  unfold ValidItems; infer_instance

/-- A campaign satisfying the input contract of the `schema.ts` variants. -/
def ValidCampaign : DiscountCampaign → Prop
  | .fixedAmount amount => 0 ≤ amount
  | .percentageCoupon percentage => 0 ≤ percentage ∧ percentage ≤ 100
  | .categoryDiscount _ percentage => 0 ≤ percentage ∧ percentage ≤ 100
  | .pointsDiscount _ => True
  | .seasonal everyXThb discountYThb => 1 ≤ everyXThb ∧ 1 ≤ discountYThb

instance (c : DiscountCampaign) : Decidable (ValidCampaign c) := by
  cases c <;> simp only [ValidCampaign] <;> infer_instance

/-- All campaigns of a list satisfy the input contract. -/
def ValidCampaigns (campaigns : List DiscountCampaign) : Prop :=
  ∀ c ∈ campaigns, ValidCampaign c

instance (campaigns : List DiscountCampaign) : Decidable (ValidCampaigns campaigns) := by
  unfold ValidCampaigns; infer_instance

/-- No two campaigns of the list share a category (the `CartSchema` refinement). -/
def DuplicateFree (campaigns : List DiscountCampaign) : Prop :=
  campaigns.Pairwise (fun a b => DiscountCampaign.category a ≠ DiscountCampaign.category b)

instance (campaigns : List DiscountCampaign) : Decidable (DuplicateFree campaigns) := by
  unfold DuplicateFree; infer_instance

/-- A successful `calculateDiscount` is a successful categorization followed by
the three stages. -/
theorem calculateDiscount_ok {cartItems : List CartItem} {campaigns : List DiscountCampaign}
    {r : DiscountResult} (hok : calculateDiscount cartItems campaigns = Except.ok r) :
    ∃ cats, categorizeCampaigns campaigns = Except.ok cats ∧
      r = applyCampaignStages cartItems cats := by
  unfold calculateDiscount at hok
  cases hc : categorizeCampaigns campaigns with
  | error e => rw [hc] at hok; exact absurd hok (by simp)
  | ok cats =>
    rw [hc] at hok
    exact ⟨cats, rfl, (Except.ok.inj hok).symm⟩

/-- Running the categorization loop over campaigns none of which is "On Top"
leaves the `onTop` slot unchanged. -/
theorem categorizeLoop_onTop_of_absent (cs : List DiscountCampaign) :
    ∀ acc cats : CategorizedCampaigns,
      (∀ c ∈ cs, DiscountCampaign.category c ≠ CampaignCategory.OnTop) →
      categorizeLoop acc cs = Except.ok cats → cats.onTop = acc.onTop := by
  induction cs with
  | nil =>
    intro acc cats _ hok
    exact congrArg CategorizedCampaigns.onTop (Except.ok.inj hok).symm
  | cons c rest ih =>
    intro acc cats hno hok
    unfold categorizeLoop at hok
    cases hstep : categorizeStep acc c with
    | error e => rw [hstep] at hok; exact absurd hok (by simp)
    | ok acc' =>
      rw [hstep] at hok
      have hrest := ih acc' cats (fun b hb => hno b (List.mem_cons_of_mem c hb)) hok
      rw [hrest]
      unfold categorizeStep at hstep
      cases hcat : DiscountCampaign.category c with
      | Coupon =>
        rw [hcat] at hstep
        cases hcp : acc.coupon with
        | some _ => rw [hcp] at hstep; exact absurd hstep (by simp)
        | none =>
          rw [hcp] at hstep
          rw [← Except.ok.inj hstep]
      | OnTop => exact absurd hcat (hno c (List.mem_cons_self c rest))
      | Seasonal =>
        rw [hcat] at hstep
        cases hcp : acc.coupon with
        | some _ => rw [hcp] at hstep; exact absurd hstep (by simp)
        | none =>
          rw [hcp] at hstep
          rw [← Except.ok.inj hstep]

/-- Running the categorization loop over campaigns none of which is Seasonal
leaves the `seasonal` slot unchanged. -/
theorem categorizeLoop_seasonal_of_absent (cs : List DiscountCampaign) :
    ∀ acc cats : CategorizedCampaigns,
      (∀ c ∈ cs, DiscountCampaign.category c ≠ CampaignCategory.Seasonal) →
      categorizeLoop acc cs = Except.ok cats → cats.seasonal = acc.seasonal := by
  induction cs with
  | nil =>
    intro acc cats _ hok
    exact congrArg CategorizedCampaigns.seasonal (Except.ok.inj hok).symm
  | cons c rest ih =>
    intro acc cats hno hok
    unfold categorizeLoop at hok
    cases hstep : categorizeStep acc c with
    | error e => rw [hstep] at hok; exact absurd hok (by simp)
    | ok acc' =>
      rw [hstep] at hok
      have hrest := ih acc' cats (fun b hb => hno b (List.mem_cons_of_mem c hb)) hok
      rw [hrest]
      unfold categorizeStep at hstep
      cases hcat : DiscountCampaign.category c with
      | Seasonal => exact absurd hcat (hno c (List.mem_cons_self c rest))
      | Coupon =>
        rw [hcat] at hstep
        cases hcp : acc.coupon with
        | some _ => rw [hcp] at hstep; exact absurd hstep (by simp)
        | none =>
          rw [hcp] at hstep
          rw [← Except.ok.inj hstep]
      | OnTop =>
        rw [hcat] at hstep
        cases hcp : acc.coupon with
        | some _ => rw [hcp] at hstep; exact absurd hstep (by simp)
        | none =>
          rw [hcp] at hstep
          rw [← Except.ok.inj hstep]

/-- In a pairwise category-distinct list, a successful categorization puts the
"On Top" member (if any) into the `onTop` slot. -/
theorem categorizeLoop_onTop_of_mem (cs : List DiscountCampaign) :
    ∀ (acc cats : CategorizedCampaigns) (x : DiscountCampaign),
      x ∈ cs → DiscountCampaign.category x = CampaignCategory.OnTop →
      cs.Pairwise (fun a b => DiscountCampaign.category a ≠ DiscountCampaign.category b) →
      categorizeLoop acc cs = Except.ok cats → cats.onTop = some x := by
  induction cs with
  | nil => intro _ _ _ hmem; exact absurd hmem (List.not_mem_nil _)
  | cons c rest ih =>
    intro acc cats x hmem hcat hpw hok
    rw [List.pairwise_cons] at hpw
    obtain ⟨hhead, htail⟩ := hpw
    unfold categorizeLoop at hok
    cases hstep : categorizeStep acc c with
    | error e => rw [hstep] at hok; exact absurd hok (by simp)
    | ok acc' =>
      rw [hstep] at hok
      rcases List.mem_cons.mp hmem with rfl | hx
      · have hslot : acc'.onTop = some x := by
          unfold categorizeStep at hstep
          rw [hcat] at hstep
          cases hcp : acc.coupon with
          | some _ => rw [hcp] at hstep; exact absurd hstep (by simp)
          | none =>
            rw [hcp] at hstep
            rw [← Except.ok.inj hstep]
        have hrest : ∀ b ∈ rest, DiscountCampaign.category b ≠ CampaignCategory.OnTop := by
          intro b hb hbc
          exact hhead b hb (hcat.trans hbc.symm)
        rw [categorizeLoop_onTop_of_absent rest acc' cats hrest hok, hslot]
      · exact ih acc' cats x hx hcat htail hok

/-- In a pairwise category-distinct list, a successful categorization puts the
Seasonal member (if any) into the `seasonal` slot. -/
theorem categorizeLoop_seasonal_of_mem (cs : List DiscountCampaign) :
    ∀ (acc cats : CategorizedCampaigns) (x : DiscountCampaign),
      x ∈ cs → DiscountCampaign.category x = CampaignCategory.Seasonal →
      cs.Pairwise (fun a b => DiscountCampaign.category a ≠ DiscountCampaign.category b) →
      categorizeLoop acc cs = Except.ok cats → cats.seasonal = some x := by
  induction cs with
  | nil => intro _ _ _ hmem; exact absurd hmem (List.not_mem_nil _)
  | cons c rest ih =>
    intro acc cats x hmem hcat hpw hok
    rw [List.pairwise_cons] at hpw
    obtain ⟨hhead, htail⟩ := hpw
    unfold categorizeLoop at hok
    cases hstep : categorizeStep acc c with
    | error e => rw [hstep] at hok; exact absurd hok (by simp)
    | ok acc' =>
      rw [hstep] at hok
      rcases List.mem_cons.mp hmem with rfl | hx
      · have hslot : acc'.seasonal = some x := by
          unfold categorizeStep at hstep
          rw [hcat] at hstep
          cases hcp : acc.coupon with
          | some _ => rw [hcp] at hstep; exact absurd hstep (by simp)
          | none =>
            rw [hcp] at hstep
            rw [← Except.ok.inj hstep]
        have hrest : ∀ b ∈ rest, DiscountCampaign.category b ≠ CampaignCategory.Seasonal := by
          intro b hb hbc
          exact hhead b hb (hcat.trans hbc.symm)
        rw [categorizeLoop_seasonal_of_absent rest acc' cats hrest hok, hslot]
      · exact ih acc' cats x hx hcat htail hok

/-- `round2` maps non-negative inputs to non-negative outputs. -/
theorem round2_nonneg {x : ℚ} (hx : 0 ≤ x) : 0 ≤ round2 x := by
  unfold round2 jsRound
  apply div_nonneg _ (by norm_num)
  have h : (0 : ℤ) ≤ Int.floor (x * 100 + 1/2) := Int.floor_nonneg.mpr (by positivity)
  exact_mod_cast h

/-- The fields of the stage-application record, spelled out. -/
theorem applyCampaignStages_fields (cartItems : List CartItem)
    (cats : CategorizedCampaigns) :
    applyCampaignStages cartItems cats =
      { originalTotal := calculateOriginalTotal cartItems
        finalTotal := round2 (max 0 (calculateOriginalTotal cartItems -
          applyCouponCampaign (calculateOriginalTotal cartItems) cats.coupon -
          applyOnTopCampaign (calculateOriginalTotal cartItems -
            applyCouponCampaign (calculateOriginalTotal cartItems) cats.coupon)
            cartItems cats.onTop -
          applySeasonalCampaign (calculateOriginalTotal cartItems -
            applyCouponCampaign (calculateOriginalTotal cartItems) cats.coupon -
            applyOnTopCampaign (calculateOriginalTotal cartItems -
              applyCouponCampaign (calculateOriginalTotal cartItems) cats.coupon)
              cartItems cats.onTop) cats.seasonal))
        totalDiscount := round2 (calculateOriginalTotal cartItems -
          max 0 (calculateOriginalTotal cartItems -
          applyCouponCampaign (calculateOriginalTotal cartItems) cats.coupon -
          applyOnTopCampaign (calculateOriginalTotal cartItems -
            applyCouponCampaign (calculateOriginalTotal cartItems) cats.coupon)
            cartItems cats.onTop -
          applySeasonalCampaign (calculateOriginalTotal cartItems -
            applyCouponCampaign (calculateOriginalTotal cartItems) cats.coupon -
            applyOnTopCampaign (calculateOriginalTotal cartItems -
              applyCouponCampaign (calculateOriginalTotal cartItems) cats.coupon)
              cartItems cats.onTop) cats.seasonal))
        appliedCampaigns :=
          [ ⟨CampaignCategory.Coupon,
              applyCouponCampaign (calculateOriginalTotal cartItems) cats.coupon⟩,
            ⟨CampaignCategory.OnTop,
              applyOnTopCampaign (calculateOriginalTotal cartItems -
                applyCouponCampaign (calculateOriginalTotal cartItems) cats.coupon)
                cartItems cats.onTop⟩,
            ⟨CampaignCategory.Seasonal,
              applySeasonalCampaign (calculateOriginalTotal cartItems -
                applyCouponCampaign (calculateOriginalTotal cartItems) cats.coupon -
                applyOnTopCampaign (calculateOriginalTotal cartItems -
                  applyCouponCampaign (calculateOriginalTotal cartItems) cats.coupon)
                  cartItems cats.onTop) cats.seasonal⟩ ] } := rfl

/-- Claim C1 fails on the code: two campaigns of the same category "On Top"
(customer points 1 and 2, both valid) do not make `calculateDiscount` fail.
The duplicate check of `categorizeCampaigns` tests the `coupon` slot in every
branch, so with no coupon present the second "On Top" campaign silently
overwrites the first: the calculation succeeds and applies the LAST duplicate
(points 2, visible as the On Top discount amount 2). -/
theorem C1_duplicate_onTop_silently_kept :
    DiscountCampaign.category (DiscountCampaign.pointsDiscount 1) =
      DiscountCampaign.category (DiscountCampaign.pointsDiscount 2) ∧
    ValidItems [⟨"Shirt", 100, ItemCategory.Clothing, some 1⟩] ∧
    ValidCampaigns [DiscountCampaign.pointsDiscount 1, DiscountCampaign.pointsDiscount 2] ∧
    calculateDiscount [⟨"Shirt", 100, ItemCategory.Clothing, some 1⟩]
        [DiscountCampaign.pointsDiscount 1, DiscountCampaign.pointsDiscount 2] =
      Except.ok ⟨100, 98, 2,
        [⟨CampaignCategory.Coupon, 0⟩, ⟨CampaignCategory.OnTop, 2⟩,
         ⟨CampaignCategory.Seasonal, 0⟩]⟩ := by
  refine ⟨rfl, by decide, by decide, ?_⟩
  norm_num [calculateDiscount, categorizeCampaigns, categorizeLoop, categorizeStep,
    DiscountCampaign.category, applyCampaignStages, applyCouponCampaign, applyOnTopCampaign,
    applySeasonalCampaign, calculateOriginalTotal, CartItem.effectiveQuantity, round2, jsRound, beq_iff_eq,
    POINTS_CAP_PERCENTAGE, POINTS_TO_THB_RATE]

/-- Claim C2 fails on the code: for a duplicate-free, valid campaign list
(one Percentage coupon, one points On Top campaign), the outcome depends on the
input order.  With the coupon listed first, `categorizeCampaigns` reaches the
"On Top" case with the `coupon` slot already filled and — because its duplicate
check erroneously tests `coupon` — throws; with the campaigns swapped the same
input succeeds. -/
theorem C2_input_order_changes_outcome :
    DuplicateFree [DiscountCampaign.percentageCoupon 10, DiscountCampaign.pointsDiscount 200] ∧
    ValidCampaigns [DiscountCampaign.percentageCoupon 10, DiscountCampaign.pointsDiscount 200] ∧
    ValidItems [⟨"Laptop", 1000, ItemCategory.Electronics, some 1⟩] ∧
    calculateDiscount [⟨"Laptop", 1000, ItemCategory.Electronics, some 1⟩]
        [DiscountCampaign.percentageCoupon 10, DiscountCampaign.pointsDiscount 200] =
      Except.error ("Can only use one On-top discount") ∧
    calculateDiscount [⟨"Laptop", 1000, ItemCategory.Electronics, some 1⟩]
        [DiscountCampaign.pointsDiscount 200, DiscountCampaign.percentageCoupon 10] =
      Except.ok ⟨1000, 720, 280,
        [⟨CampaignCategory.Coupon, 100⟩, ⟨CampaignCategory.OnTop, 180⟩,
         ⟨CampaignCategory.Seasonal, 0⟩]⟩ := by
  refine ⟨by decide, by decide, by decide, ?_, ?_⟩ <;>
  norm_num [calculateDiscount, categorizeCampaigns, categorizeLoop, categorizeStep,
    DiscountCampaign.category, applyCampaignStages, applyCouponCampaign, applyOnTopCampaign,
    applySeasonalCampaign, calculateOriginalTotal, CartItem.effectiveQuantity, round2, jsRound, beq_iff_eq,
    POINTS_CAP_PERCENTAGE, POINTS_TO_THB_RATE]

/-- Claim C3 fails on the code: on a valid, duplicate-free input (one Fixed
coupon of 150 exceeding the 100 total, one points On Top campaign, listed in
the order the buggy categorizer accepts) the running total entering the On Top
stage is −50, so the 20% points cap is negative and the recorded On Top
`discountAmount` is −10 < 0, violating the claimed non-negativity of every
per-stage amount (and the `min(0)` declared by `DiscountResultSchema`). -/
theorem C3_negative_applied_discount :
    ValidItems [⟨"Shirt", 100, ItemCategory.Clothing, some 1⟩] ∧
    ValidCampaigns [DiscountCampaign.pointsDiscount 50, DiscountCampaign.fixedAmount 150] ∧
    DuplicateFree [DiscountCampaign.pointsDiscount 50, DiscountCampaign.fixedAmount 150] ∧
    calculateDiscount [⟨"Shirt", 100, ItemCategory.Clothing, some 1⟩]
        [DiscountCampaign.pointsDiscount 50, DiscountCampaign.fixedAmount 150] =
      Except.ok ⟨100, 0, 100,
        [⟨CampaignCategory.Coupon, 150⟩, ⟨CampaignCategory.OnTop, -10⟩,
         ⟨CampaignCategory.Seasonal, 0⟩]⟩ ∧
    (-10 : ℚ) < 0 := by
  refine ⟨by decide, by decide, by decide, ?_, by norm_num⟩
  norm_num [calculateDiscount, categorizeCampaigns, categorizeLoop, categorizeStep,
    DiscountCampaign.category, applyCampaignStages, applyCouponCampaign, applyOnTopCampaign,
    applySeasonalCampaign, calculateOriginalTotal, CartItem.effectiveQuantity, round2, jsRound, beq_iff_eq,
    POINTS_CAP_PERCENTAGE, POINTS_TO_THB_RATE]

/-- Claim C9 fails on the code: with a single zero-priced item and the valid,
duplicate-free campaign list [Seasonal{everyX:1, y:2}, Coupon Fixed 1] (an
order the buggy categorizer accepts), the coupon drives the running total to
−1, the seasonal stage computes `floor(−1/1) × 2 = −2` — a negative "discount"
that inflates the total — and the result is `finalTotal = 1` and
`totalDiscount = −1` instead of the claimed all-zero result. -/
theorem C9_zero_cart_not_zero_result :
    ValidItems [⟨"Freebie", 0, ItemCategory.Clothing, some 1⟩] ∧
    ValidCampaigns [DiscountCampaign.seasonal 1 2, DiscountCampaign.fixedAmount 1] ∧
    DuplicateFree [DiscountCampaign.seasonal 1 2, DiscountCampaign.fixedAmount 1] ∧
    calculateDiscount [⟨"Freebie", 0, ItemCategory.Clothing, some 1⟩]
        [DiscountCampaign.seasonal 1 2, DiscountCampaign.fixedAmount 1] =
      Except.ok ⟨0, 1, -1,
        [⟨CampaignCategory.Coupon, 1⟩, ⟨CampaignCategory.OnTop, 0⟩,
         ⟨CampaignCategory.Seasonal, -2⟩]⟩ := by
  refine ⟨by decide, by decide, by decide, ?_⟩
  norm_num [calculateDiscount, categorizeCampaigns, categorizeLoop, categorizeStep,
    DiscountCampaign.category, applyCampaignStages, applyCouponCampaign, applyOnTopCampaign,
    applySeasonalCampaign, calculateOriginalTotal, CartItem.effectiveQuantity, round2, jsRound, beq_iff_eq,
    POINTS_CAP_PERCENTAGE, POINTS_TO_THB_RATE]

/-- Claim C4 as stated fails on the code: with a 0.005% Percentage coupon on a
100 THB cart the unrounded clamped total is 99.995, so the code reports
`finalTotal = 100` (rounded) but `totalDiscount = 0.01` — which differs from
the claimed `round(originalTotal − finalTotal, 2) = round(100 − 100, 2) = 0`,
because the code subtracts the clamped UNROUNDED total, not the rounded
`finalTotal`. -/
theorem C4_totalDiscount_formula_cex :
    calculateDiscount [⟨"Shirt", 100, ItemCategory.Clothing, some 1⟩]
        [DiscountCampaign.percentageCoupon (1/200)] =
      Except.ok ⟨100, 100, 1/100,
        [⟨CampaignCategory.Coupon, 1/200⟩, ⟨CampaignCategory.OnTop, 0⟩,
         ⟨CampaignCategory.Seasonal, 0⟩]⟩ ∧
    ¬ ((1 : ℚ)/100 = round2 (100 - 100)) := by
  constructor
  · norm_num [calculateDiscount, categorizeCampaigns, categorizeLoop, categorizeStep,
      DiscountCampaign.category, applyCampaignStages, applyCouponCampaign, applyOnTopCampaign,
      applySeasonalCampaign, calculateOriginalTotal, CartItem.effectiveQuantity, round2, jsRound, beq_iff_eq,
      POINTS_CAP_PERCENTAGE, POINTS_TO_THB_RATE]
  · norm_num [round2, jsRound]

/-- Claim C4, amended: writing c, o, s for the three per-stage discount amounts
recorded in `appliedCampaigns`, every successful `calculateDiscount` returns
`finalTotal = round(max(0, originalTotal − c − o − s), 2)` and
`totalDiscount = round(originalTotal − max(0, originalTotal − c − o − s), 2)`
(the subtraction uses the clamped but UNROUNDED final total, not the rounded
`finalTotal` field), with rounding `x ↦ floor(x·100 + 1/2)/100`; and
`finalTotal ≥ 0` always, even when c + o + s exceeds `originalTotal`. -/
theorem C4_rounding_formulas (cartItems : List CartItem) (campaigns : List DiscountCampaign)
    (r : DiscountResult) (c o s : ℚ)
    (hok : calculateDiscount cartItems campaigns = Except.ok r)
    (happ : r.appliedCampaigns =
      [⟨CampaignCategory.Coupon, c⟩, ⟨CampaignCategory.OnTop, o⟩,
       ⟨CampaignCategory.Seasonal, s⟩]) :
    r.finalTotal = round2 (max 0 (r.originalTotal - c - o - s)) ∧
    r.totalDiscount = round2 (r.originalTotal - max 0 (r.originalTotal - c - o - s)) ∧
    0 ≤ r.finalTotal := by
  obtain ⟨cats, hc, rfl⟩ := calculateDiscount_ok hok
  simp only [applyCampaignStages_fields, List.cons.injEq, AppliedCampaign.mk.injEq,
    true_and, and_true] at happ
  obtain ⟨h1, h2, h3⟩ := happ
  subst h1
  subst h2
  subst h3
  refine ⟨?_, ?_, ?_⟩ <;>
    simp only [applyCampaignStages_fields]
  exact round2_nonneg (le_max_left 0 _)

/-- Witness for C4: a 100 THB cart with a fixed 30 THB coupon satisfies the
amended rounding formulas. -/
theorem C4_rounding_formulas_witness :
    (70 : ℚ) = round2 (max 0 ((100 : ℚ) - 30 - 0 - 0)) ∧
    (30 : ℚ) = round2 ((100 : ℚ) - max 0 ((100 : ℚ) - 30 - 0 - 0)) ∧
    (0 : ℚ) ≤ 70 := by
  have h := C4_rounding_formulas [⟨"Shirt", 100, ItemCategory.Clothing, some 1⟩]
    [DiscountCampaign.fixedAmount 30]
    ⟨100, 70, 30,
      [⟨CampaignCategory.Coupon, 30⟩, ⟨CampaignCategory.OnTop, 0⟩,
       ⟨CampaignCategory.Seasonal, 0⟩]⟩ 30 0 0
    (by norm_num [calculateDiscount, categorizeCampaigns, categorizeLoop, categorizeStep,
      DiscountCampaign.category, applyCampaignStages, applyCouponCampaign, applyOnTopCampaign,
      applySeasonalCampaign, calculateOriginalTotal, CartItem.effectiveQuantity, round2, jsRound, beq_iff_eq])
    rfl
  exact h

/-- Claim C5, confirmed: the coupon stage (`applyCouponCampaign`) returns 0
with no campaign, exactly `amount` for a Fixed coupon (uncapped, even when
`amount` exceeds the running total), and `t × percentage / 100` for a
Percentage coupon. -/
theorem C5_coupon_stage_formula (t : ℚ) (ht : 0 ≤ t) :
    applyCouponCampaign t none = 0 ∧
    (∀ a : ℚ, 0 ≤ a → applyCouponCampaign t (some (DiscountCampaign.fixedAmount a)) = a) ∧
    (∀ p : ℚ, 0 ≤ p → p ≤ 100 →
      applyCouponCampaign t (some (DiscountCampaign.percentageCoupon p)) = t * p / 100) :=
  ⟨rfl, fun _ _ => rfl, fun _ _ _ => rfl⟩

/-- Witness for C5 at t = 200, a = 300 (larger than the total, still uncapped),
p = 10. -/
theorem C5_coupon_stage_formula_witness :
    applyCouponCampaign 200 none = 0 ∧
    applyCouponCampaign 200 (some (DiscountCampaign.fixedAmount 300)) = 300 ∧
    applyCouponCampaign 200 (some (DiscountCampaign.percentageCoupon 10)) = 200 * 10 / 100 := by
  obtain ⟨h1, h2, h3⟩ := C5_coupon_stage_formula 200 (by norm_num)
  exact ⟨h1, h2 300 (by norm_num), h3 10 (by norm_num) (by norm_num)⟩

/-- Claim C10, confirmed: whenever `calculateDiscount` succeeds and the sum of
the three recorded per-stage amounts is at most `originalTotal`, the
non-negative clamp is inactive and the result reports
`totalDiscount = round(c + o + s, 2)` and
`finalTotal = round(originalTotal − (c + o + s), 2)`. -/
theorem C10_totalDiscount_sum_of_stages (cartItems : List CartItem)
    (campaigns : List DiscountCampaign) (r : DiscountResult) (c o s : ℚ)
    (hitems : ValidItems cartItems) (hcamps : ValidCampaigns campaigns)
    (hdup : DuplicateFree campaigns)
    (hok : calculateDiscount cartItems campaigns = Except.ok r)
    (happ : r.appliedCampaigns =
      [⟨CampaignCategory.Coupon, c⟩, ⟨CampaignCategory.OnTop, o⟩,
       ⟨CampaignCategory.Seasonal, s⟩])
    (hsum : c + o + s ≤ r.originalTotal) :
    r.totalDiscount = round2 (c + o + s) ∧
    r.finalTotal = round2 (r.originalTotal - (c + o + s)) := by
  obtain ⟨cats, hc, rfl⟩ := calculateDiscount_ok hok
  simp only [applyCampaignStages_fields, List.cons.injEq, AppliedCampaign.mk.injEq,
    true_and, and_true] at happ
  obtain ⟨h1, h2, h3⟩ := happ
  subst h1
  subst h2
  subst h3
  simp only [applyCampaignStages_fields] at hsum ⊢
  have hclamp : max 0 (calculateOriginalTotal cartItems -
      applyCouponCampaign (calculateOriginalTotal cartItems) cats.coupon -
      applyOnTopCampaign (calculateOriginalTotal cartItems -
        applyCouponCampaign (calculateOriginalTotal cartItems) cats.coupon)
        cartItems cats.onTop -
      applySeasonalCampaign (calculateOriginalTotal cartItems -
        applyCouponCampaign (calculateOriginalTotal cartItems) cats.coupon -
        applyOnTopCampaign (calculateOriginalTotal cartItems -
          applyCouponCampaign (calculateOriginalTotal cartItems) cats.coupon)
          cartItems cats.onTop) cats.seasonal) =
      calculateOriginalTotal cartItems -
      applyCouponCampaign (calculateOriginalTotal cartItems) cats.coupon -
      applyOnTopCampaign (calculateOriginalTotal cartItems -
        applyCouponCampaign (calculateOriginalTotal cartItems) cats.coupon)
        cartItems cats.onTop -
      applySeasonalCampaign (calculateOriginalTotal cartItems -
        applyCouponCampaign (calculateOriginalTotal cartItems) cats.coupon -
        applyOnTopCampaign (calculateOriginalTotal cartItems -
          applyCouponCampaign (calculateOriginalTotal cartItems) cats.coupon)
          cartItems cats.onTop) cats.seasonal := by
    apply max_eq_right
    linarith
  rw [hclamp]
  constructor
  · congr 1
    ring
  · congr 1
    ring

/-- Witness for C10: a 100 THB cart with a fixed 30 THB coupon; the stage
amounts sum to 30 ≤ 100. -/
theorem C10_totalDiscount_sum_of_stages_witness :
    (30 : ℚ) = round2 ((30 : ℚ) + 0 + 0) ∧
    (70 : ℚ) = round2 ((100 : ℚ) - ((30 : ℚ) + 0 + 0)) := by
  have h := C10_totalDiscount_sum_of_stages [⟨"Shirt", 100, ItemCategory.Clothing, some 1⟩]
    [DiscountCampaign.fixedAmount 30]
    ⟨100, 70, 30,
      [⟨CampaignCategory.Coupon, 30⟩, ⟨CampaignCategory.OnTop, 0⟩,
       ⟨CampaignCategory.Seasonal, 0⟩]⟩ 30 0 0
    (by decide) (by decide) (by decide)
    (by norm_num [calculateDiscount, categorizeCampaigns, categorizeLoop, categorizeStep,
      DiscountCampaign.category, applyCampaignStages, applyCouponCampaign, applyOnTopCampaign,
      applySeasonalCampaign, calculateOriginalTotal, CartItem.effectiveQuantity, round2, jsRound, beq_iff_eq])
    rfl (by norm_num)
  exact h

/-- Claim C6, confirmed: on any successful run whose duplicate-free campaign
list contains an On Top Fixed (points) campaign with `customerPoints = n`, the
recorded On Top discount equals `min(n × 1, 0.20 × t)` where t is the
post-coupon running total `originalTotal − c` (c the recorded coupon amount),
not the original total. -/
theorem C6_points_cap_post_coupon (cartItems : List CartItem)
    (campaigns : List DiscountCampaign) (n : Nat) (r : DiscountResult) (c o s : ℚ)
    (hitems : ValidItems cartItems) (hcamps : ValidCampaigns campaigns)
    (hdup : DuplicateFree campaigns)
    (hmem : DiscountCampaign.pointsDiscount n ∈ campaigns)
    (hok : calculateDiscount cartItems campaigns = Except.ok r)
    (happ : r.appliedCampaigns =
      [⟨CampaignCategory.Coupon, c⟩, ⟨CampaignCategory.OnTop, o⟩,
       ⟨CampaignCategory.Seasonal, s⟩]) :
    o = min ((n : ℚ) * POINTS_TO_THB_RATE) ((r.originalTotal - c) * POINTS_CAP_PERCENTAGE) := by
  obtain ⟨cats, hc, rfl⟩ := calculateDiscount_ok hok
  have hc' : categorizeLoop ⟨none, none, none⟩ campaigns = Except.ok cats := hc
  have honTop : cats.onTop = some (DiscountCampaign.pointsDiscount n) :=
    categorizeLoop_onTop_of_mem campaigns ⟨none, none, none⟩ cats
      (DiscountCampaign.pointsDiscount n) hmem rfl hdup hc'
  simp only [applyCampaignStages_fields, List.cons.injEq, AppliedCampaign.mk.injEq,
    true_and, and_true] at happ
  obtain ⟨h1, h2, h3⟩ := happ
  subst h1
  subst h2
  subst h3
  simp only [applyCampaignStages_fields, honTop, applyOnTopCampaign]

/-- Witness for C6: a 1000 THB cart, a 10% coupon and 200 points; the points
discount is capped at 20% of the post-coupon total 900, i.e. 180. -/
theorem C6_points_cap_post_coupon_witness :
    (180 : ℚ) = min ((200 : ℚ) * POINTS_TO_THB_RATE)
      (((1000 : ℚ) - 100) * POINTS_CAP_PERCENTAGE) := by
  have h := C6_points_cap_post_coupon [⟨"Laptop", 1000, ItemCategory.Electronics, some 1⟩]
    [DiscountCampaign.pointsDiscount 200, DiscountCampaign.percentageCoupon 10] 200
    ⟨1000, 720, 280,
      [⟨CampaignCategory.Coupon, 100⟩, ⟨CampaignCategory.OnTop, 180⟩,
       ⟨CampaignCategory.Seasonal, 0⟩]⟩ 100 180 0
    (by decide) (by decide) (by decide) (by decide)
    (by norm_num [calculateDiscount, categorizeCampaigns, categorizeLoop, categorizeStep,
      DiscountCampaign.category, applyCampaignStages, applyCouponCampaign, applyOnTopCampaign,
      applySeasonalCampaign, calculateOriginalTotal, CartItem.effectiveQuantity, round2, jsRound, beq_iff_eq,
      POINTS_CAP_PERCENTAGE, POINTS_TO_THB_RATE])
    rfl
  exact h

/-- Claim C7, confirmed: on any successful run whose duplicate-free campaign
list contains an On Top Percentage campaign targeting category k with
percentage p, the recorded On Top discount is the quantity-weighted subtotal of
the ORIGINAL items of category k times p / 100; it is unchanged when items of
other categories vary, and it is 0 when no item has category k. -/
theorem C7_category_percentage_formula (cartItems : List CartItem)
    (campaigns : List DiscountCampaign) (k : ItemCategory) (p : ℚ)
    (r : DiscountResult) (c o s : ℚ)
    (hitems : ValidItems cartItems) (hcamps : ValidCampaigns campaigns)
    (hdup : DuplicateFree campaigns)
    (hmem : DiscountCampaign.categoryDiscount k p ∈ campaigns)
    (hok : calculateDiscount cartItems campaigns = Except.ok r)
    (happ : r.appliedCampaigns =
      [⟨CampaignCategory.Coupon, c⟩, ⟨CampaignCategory.OnTop, o⟩,
       ⟨CampaignCategory.Seasonal, s⟩]) :
    o = calculateOriginalTotal (cartItems.filter (fun it => it.category == k)) * p / 100 ∧
    (cartItems.filter (fun it => it.category == k) = [] → o = 0) ∧
    (∀ (cartItems' : List CartItem) (r' : DiscountResult) (c' o' s' : ℚ),
      cartItems'.filter (fun it => it.category == k) =
        cartItems.filter (fun it => it.category == k) →
      calculateDiscount cartItems' campaigns = Except.ok r' →
      r'.appliedCampaigns =
        [⟨CampaignCategory.Coupon, c'⟩, ⟨CampaignCategory.OnTop, o'⟩,
         ⟨CampaignCategory.Seasonal, s'⟩] →
      o' = o) := by
  have key : ∀ (items0 : List CartItem) (r0 : DiscountResult) (c0 o0 s0 : ℚ),
      calculateDiscount items0 campaigns = Except.ok r0 →
      r0.appliedCampaigns =
        [⟨CampaignCategory.Coupon, c0⟩, ⟨CampaignCategory.OnTop, o0⟩,
         ⟨CampaignCategory.Seasonal, s0⟩] →
      o0 = calculateOriginalTotal (items0.filter (fun it => it.category == k)) * p / 100 := by
    intro items0 r0 c0 o0 s0 hok0 happ0
    obtain ⟨cats0, hc0, rfl⟩ := calculateDiscount_ok hok0
    have hc0' : categorizeLoop ⟨none, none, none⟩ campaigns = Except.ok cats0 := hc0
    have honTop : cats0.onTop = some (DiscountCampaign.categoryDiscount k p) :=
      categorizeLoop_onTop_of_mem campaigns ⟨none, none, none⟩ cats0
        (DiscountCampaign.categoryDiscount k p) hmem rfl hdup hc0'
    simp only [applyCampaignStages_fields, List.cons.injEq, AppliedCampaign.mk.injEq,
      true_and, and_true] at happ0
    obtain ⟨h1, h2, h3⟩ := happ0
    subst h2
    simp only [applyCampaignStages_fields, honTop, applyOnTopCampaign]
  refine ⟨key cartItems r c o s hok happ, ?_, ?_⟩
  · intro hempty
    rw [key cartItems r c o s hok happ, hempty]
    simp [calculateOriginalTotal]
  · intro cartItems' r' c' o' s' hfilter hok' happ'
    rw [key cartItems' r' c' o' s' hok' happ', key cartItems r c o s hok happ, hfilter]

/-- Witness for C7: the assignment example — 15% On Top discount on Clothing
over items 350 + 700 (Clothing) and 850 (Accessories) yields 1050 × 15 / 100.  -/
theorem C7_category_percentage_formula_witness :
    (315/2 : ℚ) = calculateOriginalTotal
      (([⟨"TShirt", 350, ItemCategory.Clothing, some 1⟩,
         ⟨"Hoodie", 700, ItemCategory.Clothing, some 1⟩,
         ⟨"Watch", 850, ItemCategory.Accessories, some 1⟩] : List CartItem).filter
        (fun it => it.category == ItemCategory.Clothing)) * 15 / 100 := by
  have h := C7_category_percentage_formula
    [⟨"TShirt", 350, ItemCategory.Clothing, some 1⟩,
     ⟨"Hoodie", 700, ItemCategory.Clothing, some 1⟩,
     ⟨"Watch", 850, ItemCategory.Accessories, some 1⟩]
    [DiscountCampaign.categoryDiscount ItemCategory.Clothing 15] ItemCategory.Clothing 15
    ⟨1900, 3485/2, 315/2,
      [⟨CampaignCategory.Coupon, 0⟩, ⟨CampaignCategory.OnTop, 315/2⟩,
       ⟨CampaignCategory.Seasonal, 0⟩]⟩ 0 (315/2) 0
    (by decide) (by decide) (by decide) (by decide)
    (by norm_num [calculateDiscount, categorizeCampaigns, categorizeLoop, categorizeStep,
      DiscountCampaign.category, applyCampaignStages, applyCouponCampaign, applyOnTopCampaign,
      applySeasonalCampaign, calculateOriginalTotal, CartItem.effectiveQuantity, round2, jsRound,
      show (ItemCategory.Accessories == ItemCategory.Clothing) = false from rfl,
      show (ItemCategory.Clothing == ItemCategory.Clothing) = true from rfl,
      POINTS_CAP_PERCENTAGE, POINTS_TO_THB_RATE])
    rfl
  exact h.1

/-- Claim C8, confirmed: on any successful run with a duplicate-free, valid
campaign list, if the list contains a Seasonal campaign {everyXThb = x,
discountYThb = y} then the recorded seasonal discount is
`floor(t / x) × y` for t the running total after the coupon and On Top stages
(`originalTotal − c − o`), and it is 0 whenever 0 ≤ t < x; with no Seasonal
campaign in the list the seasonal discount is 0. -/
theorem C8_seasonal_step_formula (cartItems : List CartItem)
    (campaigns : List DiscountCampaign) (r : DiscountResult) (c o s : ℚ)
    (hitems : ValidItems cartItems) (hcamps : ValidCampaigns campaigns)
    (hdup : DuplicateFree campaigns)
    (hok : calculateDiscount cartItems campaigns = Except.ok r)
    (happ : r.appliedCampaigns =
      [⟨CampaignCategory.Coupon, c⟩, ⟨CampaignCategory.OnTop, o⟩,
       ⟨CampaignCategory.Seasonal, s⟩]) :
    (∀ x y : ℚ, DiscountCampaign.seasonal x y ∈ campaigns →
      s = (Int.floor ((r.originalTotal - c - o) / x) : ℚ) * y ∧
      (0 ≤ r.originalTotal - c - o → r.originalTotal - c - o < x → s = 0)) ∧
    ((∀ camp ∈ campaigns, DiscountCampaign.category camp ≠ CampaignCategory.Seasonal) →
      s = 0) := by
  obtain ⟨cats, hc, rfl⟩ := calculateDiscount_ok hok
  have hc' : categorizeLoop ⟨none, none, none⟩ campaigns = Except.ok cats := hc
  simp only [applyCampaignStages_fields, List.cons.injEq, AppliedCampaign.mk.injEq,
    true_and, and_true] at happ
  obtain ⟨h1, h2, h3⟩ := happ
  subst h1
  subst h2
  subst h3
  constructor
  · intro x y hmem
    have hseas : cats.seasonal = some (DiscountCampaign.seasonal x y) :=
      categorizeLoop_seasonal_of_mem campaigns ⟨none, none, none⟩ cats
        (DiscountCampaign.seasonal x y) hmem rfl hdup hc'
    have hx : 1 ≤ x := (hcamps (DiscountCampaign.seasonal x y) hmem).1
    constructor
    · simp only [applyCampaignStages_fields, hseas, applySeasonalCampaign]
    · intro ht0 htx
      simp only [applyCampaignStages_fields] at ht0 htx ⊢
      rw [hseas]
      simp only [applySeasonalCampaign]
      have hfloor : Int.floor ((calculateOriginalTotal cartItems -
          applyCouponCampaign (calculateOriginalTotal cartItems) cats.coupon -
          applyOnTopCampaign (calculateOriginalTotal cartItems -
            applyCouponCampaign (calculateOriginalTotal cartItems) cats.coupon)
            cartItems cats.onTop) / x) = 0 := by
        rw [Int.floor_eq_zero_iff]
        constructor
        · exact div_nonneg ht0 (le_trans zero_le_one hx)
        · exact (div_lt_one (lt_of_lt_of_le zero_lt_one hx)).mpr htx
      rw [hfloor]
      norm_num
  · intro hno
    have hseas : cats.seasonal = none := by
      have hpres := categorizeLoop_seasonal_of_absent campaigns ⟨none, none, none⟩ cats hno hc'
      simpa using hpres
    simp only [applyCampaignStages_fields, hseas, applySeasonalCampaign]

/-- Witness for C8: the assignment example — 950 THB cart, Seasonal campaign
"40 off every 300": discount floor(950/300) × 40 = 120. -/
theorem C8_seasonal_step_formula_witness :
    (120 : ℚ) = (Int.floor (((950 : ℚ) - 0 - 0) / 300) : ℚ) * 40 := by
  have h := C8_seasonal_step_formula [⟨"Gown", 950, ItemCategory.Clothing, some 1⟩]
    [DiscountCampaign.seasonal 300 40]
    ⟨950, 830, 120,
      [⟨CampaignCategory.Coupon, 0⟩, ⟨CampaignCategory.OnTop, 0⟩,
       ⟨CampaignCategory.Seasonal, 120⟩]⟩ 0 0 120
    (by decide) (by decide) (by decide)
    (by norm_num [calculateDiscount, categorizeCampaigns, categorizeLoop, categorizeStep,
      DiscountCampaign.category, applyCampaignStages, applyCouponCampaign, applyOnTopCampaign,
      applySeasonalCampaign, calculateOriginalTotal, CartItem.effectiveQuantity, round2, jsRound, beq_iff_eq,
      POINTS_CAP_PERCENTAGE, POINTS_TO_THB_RATE])
    rfl
  exact (h.1 300 40 (by simp)).1
